import Mathlib

/-!
# Verification of the pcdsdaq DAQ control client (`pcdsdaq/daq.py`)

A shallow embedding of the state-machine / control-client subsystem of
`pcdsdaq`, together with theorems settling the frozen claims about it.

Conventions used throughout:

* Python exceptions are modelled by the `PyErr` type and fallible code
  returns `Except PyErr _`.
* The `_CONFIG_VAL` sentinel ("inherit the previous value") is modelled by
  `Option`: an argument equal to `none` is the sentinel, `some v` is an
  explicitly passed value `v`.
* Python values stored in the configuration signals are modelled by `PyVal`
  (with `PyVal.none` being Python's `None`, which is distinct from the
  sentinel).
* Machine state that the code mutates is passed explicitly; methods return a
  pair of result and updated state, or a list of the RPC calls issued to the
  peer where only those matter.
-/

/-- The Python exception kinds raised by the code under study. -/
inductive PyErr where
  | attributeError (msg : String)
  | runtimeError (msg : String)
  | stateTransitionError (msg : String)
  | typeError (msg : String)
  | valueError (msg : String)
  deriving DecidableEq, Repr

/-- Python values stored in the configuration signals (`events_cfg`,
`duration_cfg`, ...).  `PyVal.none` is Python's `None`. -/
inductive PyVal where
  | none
  | int (n : Int)
  | float (q : Rat)
  | bool (b : Bool)
  | str (s : String)
  deriving DecidableEq, Repr

/-- The LCLS1 configuration cache: one field per `Cpt(Signal, ..., kind='config')`
of `Daq`/`DaqLCLS1` that `DaqLCLS1.preconfig` can touch
(`events`, `duration`, `record`, `use_l3t`, `controls`, `begin_sleep`). -/
structure Cfg where
  events : PyVal
  duration : PyVal
  record : PyVal
  useL3t : PyVal
  controls : PyVal
  beginSleep : PyVal
  deriving DecidableEq, Repr

/-- The class-level defaults of the configuration signals:
`events=None`, `duration=None`, `record=None`, `controls=None`,
`use_l3t=False`, `begin_sleep=0`. -/
def Cfg.default : Cfg :=
  ⟨PyVal.none, PyVal.none, PyVal.none, PyVal.bool false, PyVal.none, PyVal.int 0⟩

/-- The mutable state of a `DaqLCLS1` instance relevant to the configuration
claims: the config signal cache, the dirty flag
`_queue_configure_transition`, and the `configured_sig` boolean signal. -/
structure Daq1 where
  cfg : Cfg
  queueConfigureTransition : Bool
  configuredSig : Bool
  deriving DecidableEq, Repr

/-- A freshly constructed `DaqLCLS1`: default config signal values,
`_queue_configure_transition = True` (set in `Daq.__init__`), and
`configured_sig` holding `False`. -/
def Daq1.init : Daq1 := ⟨Cfg.default, true, false⟩

/-- `Daq.config`: if `self.configured` (the `configured_sig` signal) then the
current values of the config signals, else a copy of the class defaults. -/
def Daq.config (d : Daq1) : Cfg :=
  if d.configuredSig then d.cfg else Cfg.default

/-- `Daq.preconfig` as invoked from `DaqLCLS1.preconfig`: each keyword whose
value is not the `_CONFIG_VAL` sentinel (`none` here) is written to the
matching `*_cfg` signal, and the dirty flag `_queue_configure_transition` is
set whenever a key in `requires_configure_transition = {'record', 'use_l3t'}`
was explicitly passed.  All six keys name existing config signals, so the
`ValueError` branches of the source are unreachable from this call site. -/
def Daq.preconfig (d : Daq1)
    (events duration record useL3t controls beginSleep : Option PyVal) : Daq1 :=
  { cfg :=
      { events := events.getD d.cfg.events
        duration := duration.getD d.cfg.duration
        record := record.getD d.cfg.record
        useL3t := useL3t.getD d.cfg.useL3t
        controls := controls.getD d.cfg.controls
        beginSleep := beginSleep.getD d.cfg.beginSleep }
    queueConfigureTransition :=
      d.queueConfigureTransition || record.isSome || useL3t.isSome
    configuredSig := d.configuredSig }

/-- `DaqLCLS1.preconfig`: the source guards exclusivity with only
`if events is not _CONFIG_VAL: duration = _CONFIG_VAL`
(discarding a simultaneously passed `duration` when `events` is given),
then delegates to `Daq.preconfig`. -/
def DaqLCLS1.preconfig (d : Daq1)
    (events duration record useL3t controls beginSleep : Option PyVal) : Daq1 :=
  Daq.preconfig d events (if events.isSome then Option.none else duration)
    record useL3t controls beginSleep

/-- `DaqLCLS1.state`: when connected the source evaluates
`self._state_enum(num).name`, but the class only defines `state_enum`
(`_state_enum` is assigned nowhere in the module and not provided by the
`ophyd` base classes), so the attribute lookup raises `AttributeError`;
the peer `self._control.state()` call happens first and its result `num`
is discarded by the failure.  When not connected it returns
`'Disconnected'`. -/
def DaqLCLS1.state (connected : Bool) (_num : Nat) : Except PyErr String :=
  if connected then
    Except.error (PyErr.attributeError
      "'DaqLCLS1' object has no attribute '_state_enum'")
  else
    Except.ok "Disconnected"

/-- Python's `duration < 1` for the value kinds that can reach
`DaqLCLS1._check_duration`: ints and floats compare numerically, bools are
ints (`False = 0 < 1`, `True = 1`), anything else raises `TypeError`
(`none` result). -/
def PyVal.ltOne : PyVal → Option Bool
  | PyVal.int n => some (decide (n < 1))
  | PyVal.float q => some (decide (q < 1))
  | PyVal.bool b => some (decide (!b))
  | _ => Option.none

/-- `DaqLCLS1._check_duration`: raises the "duration too short" `RuntimeError`
iff `duration` is neither `None` nor the `_CONFIG_VAL` sentinel and
`duration < 1`. -/
def DaqLCLS1.check_duration : Option PyVal → Except PyErr Unit
  | Option.none => Except.ok ()
  | some PyVal.none => Except.ok ()
  | some v =>
    match v.ltOne with
    | some true => Except.error (PyErr.runtimeError
        "Duration argument less than 1 is unreliable. Please use the events argument to specify the length of very short runs.")
    | some false => Except.ok ()
    | Option.none => Except.error (PyErr.typeError
        "unorderable types in duration comparison")

/-- Python truthiness for the `if use_l3t:` test in `DaqLCLS1._config_args`. -/
def PyVal.truthy : PyVal → Bool
  | PyVal.none => false
  | PyVal.int n => n ≠ 0
  | PyVal.float q => q ≠ 0
  | PyVal.bool b => b
  | PyVal.str s => s ≠ ""

/-- `DaqLCLS1._config_args`: the keyword arguments sent to
`pydaq.Control.configure`.  The `controls` entry is passed through opaquely
(`_ctrl_arg` reads live device positions, which are outside this model and
unused by every theorem below). -/
def DaqLCLS1.config_args (record useL3t controls : PyVal) :
    List (String × PyVal) :=
  (if record ≠ PyVal.none then [("record", PyVal.bool record.truthy)] else [])
    ++ (if useL3t.truthy then [("l3t_events", PyVal.int 0)]
        else [("events", PyVal.int 0)])
    ++ (if controls ≠ PyVal.none then [("controls", controls)] else [])

/-- Lines 1031-1073 of `DaqLCLS1.configure` given the string the `state`
property produced; `peerOk` says whether the peer `pydaq.Control.configure`
RPC succeeds.  Source order inside the `try:` block: the peer call, then
`self._queue_configure_transition = False`, then `self.configred_sig.put(True)`
— the latter is a misspelling of `configured_sig`, so it raises
`AttributeError`, which the `except Exception` clause converts into
`RuntimeError('Failed to configure!')`.  Consequently this function can
never return `Except.ok`. -/
def DaqLCLS1.configure_from_state (st : String) (d : Daq1)
    (events duration record useL3t controls beginSleep : Option PyVal)
    (peerOk : Bool) : Except PyErr Unit × Daq1 :=
  if st ≠ "Connected" ∧ st ≠ "Configured" then
    (Except.error (PyErr.stateTransitionError
      ("Cannot configure from state " ++ st ++ "!")), d)
  else
    match DaqLCLS1.check_duration duration with
    | Except.error e => (Except.error e, d)
    | Except.ok _ =>
      -- super().configure(...) = read old config + DaqLCLS1.preconfig(...)
      let d1 := DaqLCLS1.preconfig d events duration record useL3t controls
        beginSleep
      -- config = self.config (defaults unless configured_sig is already set)
      let cfg := Daq.config d1
      let _args := DaqLCLS1.config_args cfg.record cfg.useL3t cfg.controls
      if peerOk then
        (Except.error (PyErr.runtimeError "Failed to configure!"),
          { d1 with queueConfigureTransition := false })
      else
        (Except.error (PyErr.runtimeError "Failed to configure!"), d1)

/-- `DaqLCLS1.configure` on a connected instance (`check_connect` has already
ensured `self._control is not None`): first `state = self.state`, whose
`AttributeError` propagates, then the remainder of the method
(`configure_from_state`). -/
def DaqLCLS1.configure (d : Daq1) (num : Nat)
    (events duration record useL3t controls beginSleep : Option PyVal)
    (peerOk : Bool) : Except PyErr Unit × Daq1 :=
  match DaqLCLS1.state true num with
  | Except.error e => (Except.error e, d)
  | Except.ok st =>
    DaqLCLS1.configure_from_state st d events duration record useL3t controls
      beginSleep peerOk

/-- The peer RPCs a `DaqLCLS1.configure` call issues: the
`pydaq.Control.configure` RPC sits inside the `try:` block, after the
`state` read and the guards; the `state` read raises on every connected
instance, so the RPC is never reached. -/
def DaqLCLS1.configure_peer_calls (num : Nat) (duration : Option PyVal) :
    List String :=
  match DaqLCLS1.state true num with
  | Except.error _ => []
  | Except.ok st =>
    if st ≠ "Connected" ∧ st ≠ "Configured" then []
    else
      match DaqLCLS1.check_duration duration with
      | Except.error _ => []
      | Except.ok _ => ["configure"]

/-- Entry of `DaqLCLS1.wait` on a connected instance: the first statement is
`if self.state == 'Running':`, so the `AttributeError` from the `state`
property propagates before anything else runs; the rest of the body is
unreachable while the `_state_enum` attribute is missing and is elided. -/
def DaqLCLS1.wait (num : Nat) : Except PyErr Unit :=
  match DaqLCLS1.state true num with
  | Except.error e => Except.error e
  | Except.ok _ => Except.ok ()

/-- `Daq.pause` on a connected `DaqLCLS1`: `if self.state == 'Running':
self.stop()`.  Returns the peer-affecting calls made. -/
def Daq.pause (num : Nat) : Except PyErr (List String) :=
  match DaqLCLS1.state true num with
  | Except.error e => Except.error e
  | Except.ok st => if st = "Running" then Except.ok ["stop"] else Except.ok []

/-- `Daq.resume` on a connected `DaqLCLS1`: `if self.state == 'Open':
self.begin()`. -/
def Daq.resume (num : Nat) : Except PyErr (List String) :=
  match DaqLCLS1.state true num with
  | Except.error e => Except.error e
  | Except.ok st => if st = "Open" then Except.ok ["begin"] else Except.ok []

/-- The readiness poll of the `start_thread` worker in `DaqLCLS1.kickoff`:
`self.state in ('Open', 'Running')` (and later `('Configured', 'Open')`) —
the first `state` read already raises. -/
def DaqLCLS1.kickoff_poll (num : Nat) : Except PyErr Bool :=
  match DaqLCLS1.state true num with
  | Except.error e => Except.error e
  | Except.ok st => Except.ok (st = "Open" || st = "Running")

/-! ## Begin throttle (module constant `BEGIN_THROTTLE`, `DaqLCLS1.stop`,
and the `start_thread` worker of `DaqLCLS1.kickoff`) -/

/-- `BEGIN_THROTTLE = 1`: no begin may be issued within this many seconds of
a stop.  Wall-clock instants are modelled by rationals. -/
def BEGIN_THROTTLE : ℚ := 1

/-- The timestamp bookkeeping of `DaqLCLS1`: `_last_stop`. -/
structure StopClock where
  lastStop : ℚ
  deriving DecidableEq, Repr

/-- `DaqLCLS1.stop` (timestamp part): after the peer `stop()` RPC and
`_reset_begin()`, it records `self._last_stop = time.time()` — `now` is the
wall-clock value that call returns. -/
def DaqLCLS1.stop_clock (now : ℚ) (_c : StopClock) : StopClock := ⟨now⟩

/-- The throttle sleep of `start_thread`:
`dt = time.time() - self._last_stop; tmo = BEGIN_THROTTLE - dt;
if tmo > 0: time.sleep(tmo)`.  Returns the (minimum) seconds slept. -/
def DaqLCLS1.throttle_sleep (now lastStop : ℚ) : ℚ :=
  let dt := now - lastStop
  let tmo := BEGIN_THROTTLE - dt
  if 0 < tmo then tmo else 0

/-- The earliest wall-clock instant at which `control.begin(**begin_args)`
can execute, given that `time.sleep` suspends for at least the requested
time: the instant `now` at which the worker read the clock, plus the
throttle sleep. -/
def DaqLCLS1.begin_issue_time (now lastStop : ℚ) : ℚ :=
  now + DaqLCLS1.throttle_sleep now lastStop

/-! ## `Daq.begin` (base class): body steps and the `KeyboardInterrupt`
handler -/

/-- The externally visible steps of `Daq.begin`, in source order: the
`self.kickoff(**kwargs)` call, `kickoff_status.wait(...)`,
`time.sleep(self.begin_sleep_cfg.get())`, then — depending on `wait` and
`end_run` — a blocking `self.wait(end_run=end_run)` or a background
`threading.Thread(target=self.wait, kwargs={'end_run': end_run})`; plus the
two convergence calls of the `except KeyboardInterrupt` handler. -/
inductive BeginAct where
  | kickoff
  | statusWait
  | beginSleep
  | waitDaq (endRun : Bool)
  | spawnWait (endRun : Bool)
  | endRunCall
  | stopCall
  deriving DecidableEq, Repr

/-- The `try:` body of `Daq.begin(wait, end_run, **kwargs)` as the sequence
of steps it performs when nothing is interrupted. -/
def Daq.begin_body (wait endRun : Bool) : List BeginAct :=
  [BeginAct.kickoff, BeginAct.statusWait, BeginAct.beginSleep]
    ++ (if wait then [BeginAct.waitDaq endRun]
        else if endRun then [BeginAct.spawnWait endRun] else [])

/-- `Daq.begin` under a possible user interrupt: `interruptAt = none` means
no `KeyboardInterrupt` was raised and the body runs to completion;
`interruptAt = some k` means the interrupt arrived after `k` steps of the
body, and the `except KeyboardInterrupt:` handler then runs
`self.end_run()` if `end_run` else `self.stop()` before returning. -/
def Daq.begin_trace (wait endRun : Bool) (interruptAt : Option Nat) :
    List BeginAct :=
  match interruptAt with
  | Option.none => Daq.begin_body wait endRun
  | some k =>
    (Daq.begin_body wait endRun).take k
      ++ [if endRun then BeginAct.endRunCall else BeginAct.stopCall]

/-! ## The `DaqLCLS1.begin` → `Daq.begin` → `DaqLCLS1.kickoff` call chain
(Python keyword binding) -/

/-- The keyword arguments `DaqLCLS1.begin` passes to `super().begin(...)`
(source lines 700-707): `events`, `duration`, `record`, `use_l3t`,
`controls`, `wait` — and, notably, not `end_run`. -/
def DaqLCLS1.begin_super_kwargs : List String :=
  ["events", "duration", "record", "use_l3t", "controls", "wait"]

/-- The parameters `Daq.begin(self, wait=False, end_run=False, **kwargs)`
binds by name; every other keyword lands in `**kwargs` and is forwarded
verbatim to `self.kickoff(**kwargs)`. -/
def Daq.begin_named_params : List String := ["wait", "end_run"]

/-- The keywords `Daq.begin` forwards to `self.kickoff(**kwargs)` when called
from `DaqLCLS1.begin`. -/
def Daq.begin_kickoff_kwargs : List String :=
  DaqLCLS1.begin_super_kwargs.filter
    (fun k => !Daq.begin_named_params.contains k)

/-- The parameters accepted by
`DaqLCLS1.kickoff(self, events, duration, use_l3t, controls)`. -/
def DaqLCLS1.kickoff_params : List String :=
  ["events", "duration", "use_l3t", "controls"]

/-- Python call binding for a `f(**kwargs)` call: `TypeError` on the first
keyword that is not a parameter of `f`. -/
def bind_kwargs (params kwargs : List String) : Except PyErr Unit :=
  match kwargs.find? (fun k => !params.contains k) with
  | some k => Except.error (PyErr.typeError
      ("kickoff() got an unexpected keyword argument '" ++ k ++ "'"))
  | Option.none => Except.ok ()

/-- `Daq.begin`'s `try:` body up to the first status wait, at the
keyword-binding level: the `self.kickoff(**kwargs)` call must bind before
`kickoff_status` exists or `kickoff_status.wait` can run; a `TypeError` from
the binding is not caught by the `except KeyboardInterrupt` handler and
propagates. -/
def Daq.begin_bind (kwargs : List String) : Except PyErr Unit :=
  match bind_kwargs DaqLCLS1.kickoff_params kwargs with
  | Except.error e => Except.error e
  | Except.ok _ => Except.ok ()

/-! ## `HelpfulIntEnum` (state/transition vocabulary) -/

/-- A `HelpfulIntEnum` built with the `IntEnum` functional API from a list of
member names, e.g. `HelpfulIntEnum('PsdaqState', ControlDef.states)`: member
values are `1, 2, ...` in name order. -/
structure PyEnum where
  names : List String
  deriving DecidableEq, Repr

/-- An identifier accepted by `HelpfulIntEnum.from_any`: either a symbolic
member name or a numeric ordinal. -/
inductive PyIdent where
  | name (s : String)
  | val (n : Nat)
  deriving DecidableEq, Repr

/-- Member-value lookup by name within a name list: the first name equal to
`s` (Python enum names are unique) maps to its 1-based position. -/
def PyEnum.lookupName : List String → String → Option Nat
  | [], _ => Option.none
  | n :: rest, s =>
    if n = s then some 1 else (PyEnum.lookupName rest s).map (· + 1)

/-- Name lookup `self[identifier]`: the value of the member with that name
(`KeyError` → `none` otherwise). -/
def PyEnum.fromName (e : PyEnum) (s : String) : Option Nat :=
  PyEnum.lookupName e.names s

/-- The set of all member values, `set(self.__members__.values())`. -/
def PyEnum.memberVals (e : PyEnum) : Finset ℕ :=
  Finset.Icc 1 e.names.length

/-- The resolution logic of the body of `HelpfulIntEnum.from_any`, with
`self` standing for the enum class (the reading its docstring and
`except KeyError` clause intend): try name lookup `self[identifier]`, and
on `KeyError` fall back to value lookup `self(identifier)`.  A numeric
identifier is never a key of the member map (keys are names), so it goes to
value lookup; a string identifier never equals an `IntEnum` member value, so
for strings only name lookup can succeed.  `none` models the uncaught
`ValueError`/`KeyError` for an unknown identifier.  No real invocation
reaches this logic: the source lacks `@classmethod`, so every actual call
raises `TypeError` first — see `HelpfulIntEnum.from_any_on_class` and
`HelpfulIntEnum.from_any_on_member` below. -/
def PyEnum.from_any (e : PyEnum) : PyIdent → Option Nat
  | PyIdent.name s => e.fromName s
  | PyIdent.val n => if 1 ≤ n ∧ n ≤ e.names.length then some n else Option.none

/-- The body logic of `HelpfulIntEnum.include` under the same `self` = the
enum class reading: `{self.from_any(ident) for ident in identifiers}`; the
exception from a failed resolution propagates (`none`).  No real invocation
reaches this logic (see `HelpfulIntEnum.include_on_class`). -/
def PyEnum.includeSet (e : PyEnum) (ids : List PyIdent) :
    Option (Finset ℕ) :=
  ids.foldr
    (fun i acc =>
      match e.from_any i, acc with
      | some v, some s => some (insert v s)
      | _, _ => Option.none)
    (some ∅)

/-- The body logic of `HelpfulIntEnum.exclude` under the same reading:
`set(self.__members__.values()) - self.include(identifiers)`.  No real
invocation reaches this logic (see `HelpfulIntEnum.exclude_on_class`). -/
def PyEnum.excludeSet (e : PyEnum) (ids : List PyIdent) :
    Option (Finset ℕ) :=
  (e.includeSet ids).map (fun s => e.memberVals \ s)

/-- Python binding of a plain function's positional parameters: calling it
with fewer positional arguments than it has parameters raises `TypeError`
naming the first missing parameter. -/
def bind_positional (fname : String) (params : List String) (nargs : Nat) :
    Except PyErr Unit :=
  match params.drop nargs with
  | [] => Except.ok ()
  | p :: _ => Except.error (PyErr.typeError
      (fname ++ "() missing 1 required positional argument: '" ++ p ++ "'"))

/-- `state_enum.from_any(identifier)` as `DaqLCLS2` actually invokes it
(`__init__` lines 1407-1408, `get_status_for` lines 1529/1533-1535, the
`kickoff` guards): `state_enum` is the enum *class* and
`def from_any(self, identifier)` carries no `@classmethod`, so attribute
access through the class yields the plain function and the single
positional argument binds to `self`, leaving `identifier` missing —
`TypeError` at binding, before the body runs.  Were the binding to succeed,
the body would behave as `PyEnum.from_any`. -/
def HelpfulIntEnum.from_any_on_class (e : PyEnum) (i : PyIdent) :
    Except PyErr Nat :=
  match bind_positional "from_any" ["self", "identifier"] 1 with
  | Except.error err => Except.error err
  | Except.ok _ =>
    match e.from_any i with
    | some v => Except.ok v
    | Option.none => Except.error (PyErr.valueError "not a valid member")

/-- `member.from_any(identifier)` — the one invocation mode whose binding
succeeds (`self` = an enum member): the body's first statement
`self[identifier]` subscripts the member, but `__getitem__` lives on the
enum *metaclass*, so only the class is subscriptable and the expression
raises `TypeError`, which the `except KeyError` clause does not catch. -/
def HelpfulIntEnum.from_any_on_member (_member : Nat) (_i : PyIdent) :
    Except PyErr Nat :=
  Except.error (PyErr.typeError "'PsdaqState' object is not subscriptable")

/-- `state_enum.include(identifiers)` as invoked by `DaqLCLS2.stop`,
`DaqLCLS2.end_run` and `DaqLCLS2.kickoff`: a class-level call of the plain
instance method `include(self, identifiers)`, so the identifier list binds
to `self` and `identifiers` is missing — `TypeError` at binding, in every
state.  Were the binding to succeed, the body would behave as
`PyEnum.includeSet`. -/
def HelpfulIntEnum.include_on_class (e : PyEnum) (ids : List PyIdent) :
    Except PyErr (Finset ℕ) :=
  match bind_positional "include" ["self", "identifiers"] 1 with
  | Except.error err => Except.error err
  | Except.ok _ =>
    match e.includeSet ids with
    | some s => Except.ok s
    | Option.none => Except.error (PyErr.valueError "not a valid member")

/-- `transition_enum.exclude(identifiers)` as invoked by
`DaqLCLS2.get_done_status`: the same class-level binding failure. -/
def HelpfulIntEnum.exclude_on_class (e : PyEnum) (ids : List PyIdent) :
    Except PyErr (Finset ℕ) :=
  match bind_positional "exclude" ["self", "identifiers"] 1 with
  | Except.error err => Except.error err
  | Except.ok _ =>
    match e.excludeSet ids with
    | some s => Except.ok s
    | Option.none => Except.error (PyErr.valueError "not a valid member")

/-- The vendor `ControlDef.states` vocabulary the LCLS2 backend builds its
state enum from (`HelpfulIntEnum('PsdaqState', ControlDef.states)`). -/
def psdaqStates : PyEnum :=
  ⟨["reset", "unallocated", "allocated", "connected", "configured",
    "starting", "paused", "running"]⟩

/-! ## `DaqLCLS2.stop` / `DaqLCLS2.end_run` -/

/-- `DaqLCLS2.stop`, faithfully: the guard evaluates
`self.state_enum.include(['paused', 'running'])`, a class-level call of an
instance method, which raises `TypeError` in every state — before any
membership test and before any peer call, so `stop` never gates silently
and never issues its transition request.  Returns the transition requests
sent to the peer on success. -/
def DaqLCLS2.stop (e : PyEnum) (st : Nat) : Except PyErr (List String) :=
  match HelpfulIntEnum.include_on_class e
      [PyIdent.name "paused", PyIdent.name "running"] with
  | Except.error err => Except.error err
  | Except.ok s => if st ∈ s then Except.ok ["endstep"] else Except.ok []

/-- `DaqLCLS2.end_run`, faithfully: the same class-level `include` call,
hence the same `TypeError` in every state. -/
def DaqLCLS2.end_run (e : PyEnum) (st : Nat) : Except PyErr (List String) :=
  match HelpfulIntEnum.include_on_class e
      [PyIdent.name "starting", PyIdent.name "paused", PyIdent.name "running"]
    with
  | Except.error err => Except.error err
  | Except.ok s => if st ∈ s then Except.ok ["endrun"] else Except.ok []

/-- The gating logic of `DaqLCLS2.stop` in isolation: the method body under
a successful resolution of `include(['paused', 'running'])` — the behaviour
its docstring describes and that the missing `@classmethod` denies every
real call; no execution reaches this logic. -/
def DaqLCLS2.stop_gating (e : PyEnum) (st : Nat) :
    Except PyErr (List String) :=
  match e.includeSet [PyIdent.name "paused", PyIdent.name "running"] with
  | Option.none => Except.error (PyErr.valueError "not a valid PsdaqState")
  | some s =>
    if st ∈ s then Except.ok ["endstep"] else Except.ok []

/-- The gating logic of `DaqLCLS2.end_run` in isolation (see
`DaqLCLS2.stop_gating`). -/
def DaqLCLS2.end_run_gating (e : PyEnum) (st : Nat) :
    Except PyErr (List String) :=
  match e.includeSet
      [PyIdent.name "starting", PyIdent.name "paused", PyIdent.name "running"]
    with
  | Option.none => Except.error (PyErr.valueError "not a valid PsdaqState")
  | some s =>
    if st ∈ s then Except.ok ["endrun"] else Except.ok []

/-- The target-set resolution of `DaqLCLS2.get_status_for` (lines
1526-1535): `{self.state_enum.from_any(s) for s in state}` iterates the
given collection left to right, each iteration a class-level `from_any`
call — the first of which raises `TypeError`.  (An empty collection makes
no call and yields the empty set.) -/
def DaqLCLS2.resolve_targets (e : PyEnum) (ids : List PyIdent) :
    Except PyErr (Finset ℕ) :=
  ids.foldr
    (fun i acc =>
      match HelpfulIntEnum.from_any_on_class e i, acc with
      | Except.ok v, Except.ok s => Except.ok (insert v s)
      | Except.error err, _ => Except.error err
      | _, Except.error err => Except.error err)
    (Except.ok ∅)

/-- The transition half of `get_status_for`'s target resolution:
`transition = {None}` when the argument is `None`, otherwise a resolved
collection. -/
def DaqLCLS2.resolve_transition_arg (e : PyEnum)
    (transition : Option (List PyIdent)) : Except PyErr Unit :=
  match transition with
  | Option.none => Except.ok ()
  | some ids =>
    match DaqLCLS2.resolve_targets e ids with
    | Except.error err => Except.error err
    | Except.ok _ => Except.ok ()

/-- `DaqLCLS2.get_status_for(state, transition, ...)` up to the construction
of its status object (`none` = the argument was `None`, i.e. that target
becomes `{None}`; `some ids` = a given target collection).  With any
nonempty target the resolution raises `TypeError` and no status object is
ever constructed or returned; `Except.ok ()` stands for a successfully
constructed status, whose completion callbacks (lines 1537-1580) are
modelled by `Token.run` below. -/
def DaqLCLS2.get_status_for (e : PyEnum)
    (state transition : Option (List PyIdent)) : Except PyErr Unit :=
  match state with
  | Option.none => DaqLCLS2.resolve_transition_arg e transition
  | some ids =>
    match DaqLCLS2.resolve_targets e ids with
    | Except.error err => Except.error err
    | Except.ok _ => DaqLCLS2.resolve_transition_arg e transition

/-- The first statement of `DaqLCLS2.__init__` after `super().__init__()`
(line 1407): `self.state_sig.put(self.state_enum.from_any('reset'))` — a
class-level `from_any` call, so every `DaqLCLS2` construction raises
`TypeError` before the monitor thread even starts. -/
def DaqLCLS2.init_entry (e : PyEnum) : Except PyErr Unit :=
  match HelpfulIntEnum.from_any_on_class e (PyIdent.name "reset") with
  | Except.error err => Except.error err
  | Except.ok _ => Except.ok ()

/-! ## The composite-condition completion callbacks of
`DaqLCLS2.get_status_for` (lines 1537-1580), in isolation

No real `get_status_for(state=S, transition=T)` call constructs this token
— the target resolution at lines 1526-1535 raises `TypeError` first (see
`DaqLCLS2.get_status_for` above) — so what follows analyses the callback
closure the method would install, taken in isolation.  The monitor thread
feeds every received status tuple into `state_sig` / `transition_sig`; each
`put` runs the subscribed callbacks (`check_state`, `check_transition`)
with the new value and the signal's previous value (`old_value`).  Both
callbacks share one `threading.Lock`, so any execution — whichever thread
delivers which event, in whatever order, even "simultaneously" — is
serialised into a single interleaving of state-events and
transition-events; the model quantifies over all such interleavings as
lists of events. -/

/-- One serialised event: a state-signal update or a transition-signal
update carrying the new enum member value. -/
inductive Ev where
  | st (v : Nat)
  | tr (v : Nat)
  deriving DecidableEq, Repr

/-- The state of one `get_status_for` token: the signals' previous values
(`old_value` bookkeeping of `state_sig`/`transition_sig`), the closure's
`nonlocal last_state`/`last_transition` (both start as `None`), whether
`status.set_finished()` has run (`done`), and how many times it ran without
raising `InvalidState` (`completions`). -/
structure Token where
  prevSt : Option Nat
  prevTr : Option Nat
  lastState : Option Nat
  lastTransition : Option Nat
  done : Bool
  completions : Nat
  deriving DecidableEq, Repr

/-- The freshly built token of `get_status_for`. -/
def Token.init : Token := ⟨Option.none, Option.none, Option.none, Option.none, false, 0⟩

/-- `value in state` / `last_transition in transition` for an optional
last-observed value against a target set: `None` is in no target set (both
`state` and `transition` were passed, so the sets hold enum members only). -/
def optMem (o : Option Nat) (s : Finset ℕ) : Bool :=
  match o with
  | Option.none => false
  | some v => decide (v ∈ s)

/-- `success()`: `status.set_finished()`, with a second completion attempt
swallowed as `InvalidState` — `done` is a latch and `completions` counts the
attempts that actually completed the status. -/
def Token.finish (t : Token) : Token :=
  if t.done then t else { t with done := true, completions := t.completions + 1 }

/-- Delivery of one event to the token under the shared lock, for target
sets `S` (states) and `T` (transitions) and the `check_now` flag:

* the signal's stored value becomes the event value (so it is the next
  event's `old_value`);
* `if value == old_value and not check_now: return` — the early return of
  `check_state`/`check_transition`;
* otherwise `check_state` completes the status iff `value in state and
  last_transition in transition` (symmetrically for `check_transition`),
  and records `last_state = value` (resp. `last_transition = value`) when
  it does not complete. -/
def Token.step (checkNow : Bool) (S T : Finset ℕ) (t : Token) (e : Ev) :
    Token :=
  match e with
  | Ev.st v =>
    let t' := { t with prevSt := some v }
    if t.prevSt = some v ∧ ¬checkNow then t'
    else if decide (v ∈ S) && optMem t'.lastTransition T then t'.finish
    else { t' with lastState := some v }
  | Ev.tr v =>
    let t' := { t with prevTr := some v }
    if t.prevTr = some v ∧ ¬checkNow then t'
    else if decide (v ∈ T) && optMem t'.lastState S then t'.finish
    else { t' with lastTransition := some v }

/-- The token after an interleaving `evs` of state- and transition-events
(delivered after the token's construction; with `check_now=True` the two
initial `run=True` subscription callbacks are the first two events of the
interleaving).  After completion `clean_up` unsubscribes both callbacks;
events delivered before that point cannot complete the status again
(`finish` is a latch), so processing the whole list is equivalent. -/
def Token.run (checkNow : Bool) (S T : Finset ℕ) (evs : List Ev) : Token :=
  evs.foldl (Token.step checkNow S T) Token.init

/-- The last-observed state of an interleaving: the value of its most recent
state-event, if any. -/
def lastStObs (evs : List Ev) : Option Nat :=
  evs.foldl (fun a e => match e with | Ev.st v => some v | Ev.tr _ => a)
    Option.none

/-- The last-observed transition of an interleaving: the value of its most
recent transition-event, if any. -/
def lastTrObs (evs : List Ev) : Option Nat :=
  evs.foldl (fun a e => match e with | Ev.tr v => some v | Ev.st _ => a)
    Option.none

/-! ### Lemmas about the token machine -/

theorem Token.finish_done (t : Token) : t.finish.done = true := by
  unfold Token.finish; split <;> simp_all

theorem Token.finish_lastState (t : Token) : t.finish.lastState = t.lastState := by
  unfold Token.finish; split <;> rfl

theorem Token.finish_lastTransition (t : Token) :
    t.finish.lastTransition = t.lastTransition := by
  unfold Token.finish; split <;> rfl

theorem Token.step_done_mono (cn : Bool) (S T : Finset ℕ) (t : Token) (e : Ev)
    (h : t.done = true) : (Token.step cn S T t e).done = true := by
  cases e <;> simp only [Token.step] <;> split_ifs <;>
    first
      | exact h
      | exact Token.finish_done _

theorem Token.foldl_done_mono (cn : Bool) (S T : Finset ℕ) (evs : List Ev)
    (t : Token) (h : t.done = true) :
    (evs.foldl (Token.step cn S T) t).done = true := by
  induction evs generalizing t with
  | nil => exact h
  | cons e evs ih => exact ih _ (Token.step_done_mono cn S T t e h)

theorem Token.step_st_prevSt (cn : Bool) (S T : Finset ℕ) (t : Token)
    (v : Nat) : (Token.step cn S T t (Ev.st v)).prevSt = some v := by
  simp only [Token.step]; split_ifs <;>
    first
      | rfl
      | (unfold Token.finish; split <;> rfl)

theorem Token.step_tr_prevSt (cn : Bool) (S T : Finset ℕ) (t : Token)
    (v : Nat) : (Token.step cn S T t (Ev.tr v)).prevSt = t.prevSt := by
  simp only [Token.step]; split_ifs <;>
    first
      | rfl
      | (unfold Token.finish; split <;> rfl)

theorem Token.step_st_prevTr (cn : Bool) (S T : Finset ℕ) (t : Token)
    (v : Nat) : (Token.step cn S T t (Ev.st v)).prevTr = t.prevTr := by
  simp only [Token.step]; split_ifs <;>
    first
      | rfl
      | (unfold Token.finish; split <;> rfl)

theorem Token.step_tr_prevTr (cn : Bool) (S T : Finset ℕ) (t : Token)
    (v : Nat) : (Token.step cn S T t (Ev.tr v)).prevTr = some v := by
  simp only [Token.step]; split_ifs <;>
    first
      | rfl
      | (unfold Token.finish; split <;> rfl)

theorem Token.foldl_prevSt (cn : Bool) (S T : Finset ℕ) (evs : List Ev)
    (t : Token) :
    (evs.foldl (Token.step cn S T) t).prevSt =
      evs.foldl
        (fun a e => match e with | Ev.st v => some v | Ev.tr _ => a)
        t.prevSt := by
  induction evs generalizing t with
  | nil => rfl
  | cons e evs ih =>
    cases e with
    | st v =>
      simp only [List.foldl_cons, ih, Token.step_st_prevSt]
    | tr v =>
      simp only [List.foldl_cons, ih, Token.step_tr_prevSt]

theorem Token.foldl_prevTr (cn : Bool) (S T : Finset ℕ) (evs : List Ev)
    (t : Token) :
    (evs.foldl (Token.step cn S T) t).prevTr =
      evs.foldl
        (fun a e => match e with | Ev.tr v => some v | Ev.st _ => a)
        t.prevTr := by
  induction evs generalizing t with
  | nil => rfl
  | cons e evs ih =>
    cases e with
    | st v =>
      simp only [List.foldl_cons, ih, Token.step_st_prevTr]
    | tr v =>
      simp only [List.foldl_cons, ih, Token.step_tr_prevTr]

theorem Token.run_prevSt (cn : Bool) (S T : Finset ℕ) (evs : List Ev) :
    (Token.run cn S T evs).prevSt = lastStObs evs :=
  Token.foldl_prevSt cn S T evs Token.init

theorem Token.run_prevTr (cn : Bool) (S T : Finset ℕ) (evs : List Ev) :
    (Token.run cn S T evs).prevTr = lastTrObs evs :=
  Token.foldl_prevTr cn S T evs Token.init

theorem lastStObs_append_st (evs : List Ev) (v : Nat) :
    lastStObs (evs ++ [Ev.st v]) = some v := by
  simp [lastStObs, List.foldl_append]

theorem lastStObs_append_tr (evs : List Ev) (v : Nat) :
    lastStObs (evs ++ [Ev.tr v]) = lastStObs evs := by
  simp [lastStObs, List.foldl_append]

theorem lastTrObs_append_tr (evs : List Ev) (v : Nat) :
    lastTrObs (evs ++ [Ev.tr v]) = some v := by
  simp [lastTrObs, List.foldl_append]

theorem lastTrObs_append_st (evs : List Ev) (v : Nat) :
    lastTrObs (evs ++ [Ev.st v]) = lastTrObs evs := by
  simp [lastTrObs, List.foldl_append]

theorem Token.run_append (cn : Bool) (S T : Finset ℕ) (evs : List Ev)
    (e : Ev) :
    Token.run cn S T (evs ++ [e]) =
      Token.step cn S T (Token.run cn S T evs) e := by
  simp [Token.run, List.foldl_append]

theorem Token.run_track (cn : Bool) (S T : Finset ℕ) (evs : List Ev)
    (h : (Token.run cn S T evs).done = false) :
    (Token.run cn S T evs).lastState = lastStObs evs ∧
      (Token.run cn S T evs).lastTransition = lastTrObs evs := by
  induction evs using List.reverseRecOn with
  | nil => exact ⟨rfl, rfl⟩
  | append_singleton r e ih =>
    have hrun := Token.run_append cn S T r e
    have hr : (Token.run cn S T r).done = false := by
      by_contra hd
      rw [Bool.not_eq_false] at hd
      have := Token.step_done_mono cn S T (Token.run cn S T r) e hd
      rw [← hrun] at this
      rw [this] at h
      exact Bool.true_eq_false.mp h
    obtain ⟨ihS, ihT⟩ := ih hr
    have hprevS := Token.run_prevSt cn S T r
    have hprevT := Token.run_prevTr cn S T r
    cases e with
    | st v =>
      rw [hrun, lastStObs_append_st, lastTrObs_append_st]
      rw [hrun] at h
      simp only [Token.step] at h ⊢
      split_ifs at h ⊢ with h1 h2
      · -- early return: `value == old_value and not check_now`
        have hv : lastStObs r = some v := by rw [← hprevS]; exact h1.1
        refine ⟨?_, ihT⟩
        simp only [ihS, hv]
      · -- success branch cannot leave the token pending
        rw [Token.finish_done] at h
        exact absurd h (by simp)
      · exact ⟨rfl, ihT⟩
    | tr v =>
      rw [hrun, lastTrObs_append_tr, lastStObs_append_tr]
      rw [hrun] at h
      simp only [Token.step] at h ⊢
      split_ifs at h ⊢ with h1 h2
      · have hv : lastTrObs r = some v := by rw [← hprevT]; exact h1.1
        refine ⟨ihS, ?_⟩
        simp only [ihT, hv]
      · rw [Token.finish_done] at h
        exact absurd h (by simp)
      · exact ⟨ihS, rfl⟩

theorem Token.finish_completions (t : Token)
    (h : t.completions = if t.done then 1 else 0) :
    t.finish.completions = if t.finish.done then 1 else 0 := by
  unfold Token.finish; split <;> simp_all

theorem Token.step_completions (cn : Bool) (S T : Finset ℕ) (t : Token)
    (e : Ev) (h : t.completions = if t.done then 1 else 0) :
    (Token.step cn S T t e).completions =
      if (Token.step cn S T t e).done then 1 else 0 := by
  cases e <;> simp only [Token.step] <;> split_ifs <;>
    simp_all [Token.finish]

theorem Token.run_completions (cn : Bool) (S T : Finset ℕ) (evs : List Ev) :
    (Token.run cn S T evs).completions =
      if (Token.run cn S T evs).done then 1 else 0 := by
  suffices h : ∀ t : Token, t.completions = (if t.done then 1 else 0) →
      (evs.foldl (Token.step cn S T) t).completions =
        if (evs.foldl (Token.step cn S T) t).done then 1 else 0 from
    h Token.init rfl
  induction evs with
  | nil => exact fun t ht => ht
  | cons e evs ih =>
    exact fun t ht => ih _ (Token.step_completions cn S T t e ht)

theorem Token.run_done_of_obs (cn : Bool) (S T : Finset ℕ) (p : List Ev)
    (hS : optMem (lastStObs p) S = true)
    (hT : optMem (lastTrObs p) T = true) :
    (Token.run cn S T p).done = true := by
  induction p using List.reverseRecOn with
  | nil => simp [lastStObs, optMem] at hS
  | append_singleton r e ih =>
    by_cases hd : (Token.run cn S T r).done = true
    · rw [Token.run_append]
      exact Token.step_done_mono cn S T _ e hd
    · rw [Bool.not_eq_true] at hd
      obtain ⟨trS, trT⟩ := Token.run_track cn S T r hd
      rw [Token.run_append]
      cases e with
      | st v =>
        rw [lastStObs_append_st] at hS
        rw [lastTrObs_append_st] at hT
        have hvS : decide (v ∈ S) = true := by simpa [optMem] using hS
        simp only [Token.step]
        split_ifs with h1 h2
        · exfalso
          have hobs : lastStObs r = some v := by
            rw [← Token.run_prevSt cn S T r]; exact h1.1
          have : (Token.run cn S T r).done = true :=
            ih (by simp [optMem, hobs, hvS]) hT
          rw [hd] at this
          exact Bool.false_ne_true this
        · exact Token.finish_done _
        · exfalso
          apply h2
          simp only [hvS, Bool.true_and]
          rw [trT]
          exact hT
      | tr v =>
        rw [lastTrObs_append_tr] at hT
        rw [lastStObs_append_tr] at hS
        have hvT : decide (v ∈ T) = true := by simpa [optMem] using hT
        simp only [Token.step]
        split_ifs with h1 h2
        · exfalso
          have hobs : lastTrObs r = some v := by
            rw [← Token.run_prevTr cn S T r]; exact h1.1
          have : (Token.run cn S T r).done = true :=
            ih hS (by simp [optMem, hobs, hvT])
          rw [hd] at this
          exact Bool.false_ne_true this
        · exact Token.finish_done _
        · exfalso
          apply h2
          simp only [hvT, Bool.true_and]
          rw [trS]
          exact hS

theorem Token.run_obs_of_done (cn : Bool) (S T : Finset ℕ) (evs : List Ev)
    (h : (Token.run cn S T evs).done = true) :
    ∃ p q, p ++ q = evs ∧ optMem (lastStObs p) S = true ∧
      optMem (lastTrObs p) T = true := by
  induction evs using List.reverseRecOn with
  | nil => simp [Token.run, Token.init] at h
  | append_singleton r e ih =>
    by_cases hd : (Token.run cn S T r).done = true
    · obtain ⟨p, q, hpq, h1, h2⟩ := ih hd
      exact ⟨p, q ++ [e], by rw [← List.append_assoc, hpq], h1, h2⟩
    · rw [Bool.not_eq_true] at hd
      obtain ⟨trS, trT⟩ := Token.run_track cn S T r hd
      rw [Token.run_append] at h
      cases e with
      | st v =>
        simp only [Token.step] at h
        split_ifs at h with h1 h2
        · simp [hd] at h
        · obtain ⟨hv, hlt⟩ := Bool.and_eq_true_iff.mp h2
          refine ⟨r ++ [Ev.st v], [], by simp, ?_, ?_⟩
          · rw [lastStObs_append_st]
            simpa [optMem] using hv
          · rw [lastTrObs_append_st, ← trT]
            simpa using hlt
        · simp [hd] at h
      | tr v =>
        simp only [Token.step] at h
        split_ifs at h with h1 h2
        · simp [hd] at h
        · obtain ⟨hv, hls⟩ := Bool.and_eq_true_iff.mp h2
          refine ⟨r ++ [Ev.tr v], [], by simp, ?_, ?_⟩
          · rw [lastStObs_append_tr, ← trS]
            simpa using hls
          · rw [lastTrObs_append_tr]
            simpa [optMem] using hv
        · simp [hd] at h

/-- The behaviour of the `check_state`/`check_transition` callback closure
of `get_status_for` (lines 1537-1580) in isolation, for resolved target
sets `S` and `T` and the default `check_now=True`: the token completes at
most once, and it completes (exactly once) precisely in those interleavings
of state-events and transition-events that have a point — a prefix,
regardless of which event arrives first, last, or simultaneously — at which
the last-observed state is in `S` and the last-observed transition is in
`T`; it never completes in an interleaving where only one of the two
conditions ever holds.  No real call installs these callbacks (the target
resolution raises `TypeError` first). -/
theorem Token.run_exactly_once_iff (S T : Finset ℕ)
    (evs : List Ev) :
    (Token.run true S T evs).completions ≤ 1 ∧
    ((Token.run true S T evs).completions = 1 ↔
      ∃ p q, p ++ q = evs ∧ optMem (lastStObs p) S = true ∧
        optMem (lastTrObs p) T = true) := by
  have hc := Token.run_completions true S T evs
  constructor
  · rw [hc]; split <;> norm_num
  · constructor
    · intro h1
      apply Token.run_obs_of_done true S T evs
      by_contra hdone
      rw [Bool.not_eq_true] at hdone
      rw [hc, hdone] at h1
      simp at h1
    · rintro ⟨p, q, rfl, hS, hT⟩
      have hp := Token.run_done_of_obs true S T p hS hT
      have hsplit : Token.run true S T (p ++ q) =
          q.foldl (Token.step true S T) (Token.run true S T p) := by
        simp [Token.run, List.foldl_append]
      have hdone : (Token.run true S T (p ++ q)).done = true := by
        rw [hsplit]
        exact Token.foldl_done_mono true S T q _ hp
      rw [hc, hdone]
      rfl

/-- **C1.** The claim says the status object returned by
`get_status_for(state=S, transition=T)` completes exactly once in every
interleaving where both conditions eventually hold simultaneously and never
otherwise.  On the code, no such status object ever exists: resolving any
nonempty target collection calls `state_enum.from_any` /
`transition_enum.from_any` through the enum class — plain instance methods
with no `@classmethod` — so the first resolution raises
`TypeError: from_any() missing 1 required positional argument` (line 1529)
before a status is constructed; and `DaqLCLS2.__init__` raises the same
`TypeError` at line 1407, so the backend cannot even be built.  The third
conjunct shows the claim describes the intended behaviour: the callback
closure of lines 1537-1580, taken in isolation, completes a token at most
once, and exactly once precisely when some prefix of the interleaving has
last-observed state in `S` and last-observed transition in `T`, never when
only one condition ever holds — the missing `@classmethod` decorators are
the slip. -/
theorem get_status_for_raises_type_error :
    DaqLCLS2.get_status_for psdaqStates (some [PyIdent.name "running"])
        (some [PyIdent.name "endrun"]) =
      Except.error (PyErr.typeError
        "from_any() missing 1 required positional argument: 'identifier'") ∧
    DaqLCLS2.init_entry psdaqStates =
      Except.error (PyErr.typeError
        "from_any() missing 1 required positional argument: 'identifier'") ∧
    (∀ (S T : Finset ℕ) (evs : List Ev),
      (Token.run true S T evs).completions ≤ 1 ∧
      ((Token.run true S T evs).completions = 1 ↔
        ∃ p q, p ++ q = evs ∧ optMem (lastStObs p) S = true ∧
          optMem (lastTrObs p) T = true)) :=
  ⟨rfl, rfl, Token.run_exactly_once_iff⟩

/-! ### Lemmas about the enum helpers -/

theorem PyEnum.lookupName_bounds (l : List String) (s : String) (v : Nat)
    (h : PyEnum.lookupName l s = some v) : 1 ≤ v ∧ v ≤ l.length := by
  induction l generalizing v with
  | nil => simp [PyEnum.lookupName] at h
  | cons n rest ih =>
    rw [PyEnum.lookupName] at h
    split_ifs at h with hn
    · cases h
      simp
    · obtain ⟨w, hw, rfl⟩ := Option.map_eq_some'.mp h
      obtain ⟨hw1, hw2⟩ := ih w hw
      constructor
      · omega
      · simpa using Nat.add_le_add_right hw2 1

theorem PyEnum.from_any_mem (e : PyEnum) (i : PyIdent) (v : Nat)
    (h : e.from_any i = some v) : v ∈ e.memberVals := by
  cases i with
  | name s =>
    obtain ⟨h1, h2⟩ := PyEnum.lookupName_bounds e.names s v h
    simpa [PyEnum.memberVals, Finset.mem_Icc] using ⟨h1, h2⟩
  | val n =>
    simp only [PyEnum.from_any] at h
    split_ifs at h with hb
    cases h
    simpa [PyEnum.memberVals, Finset.mem_Icc] using hb

theorem PyEnum.includeSet_cons (e : PyEnum) (i : PyIdent) (ids : List PyIdent) :
    e.includeSet (i :: ids) =
      match e.from_any i, e.includeSet ids with
      | some v, some s => some (insert v s)
      | _, _ => Option.none := rfl

theorem PyEnum.includeSet_spec (e : PyEnum) (ids : List PyIdent)
    (s : Finset ℕ) (h : e.includeSet ids = some s) :
    ∀ v, v ∈ s ↔ ∃ i ∈ ids, e.from_any i = some v := by
  induction ids generalizing s with
  | nil =>
    simp only [PyEnum.includeSet, List.foldr_nil, Option.some.injEq] at h
    subst h
    simp
  | cons i ids ih =>
    rw [PyEnum.includeSet_cons] at h
    cases hfa : e.from_any i with
    | none => rw [hfa] at h; exact absurd h (by simp)
    | some w =>
      cases hrest : e.includeSet ids with
      | none => rw [hfa, hrest] at h; exact absurd h (by simp)
      | some s0 =>
        rw [hfa, hrest] at h
        simp only [Option.some.injEq] at h
        subst h
        intro v
        constructor
        · intro hv
          rcases Finset.mem_insert.mp hv with hv | hv
          · exact ⟨i, List.mem_cons_self i ids, by rw [hfa, hv]⟩
          · obtain ⟨j, hj, hja⟩ := (ih s0 hrest v).mp hv
            exact ⟨j, List.mem_cons_of_mem i hj, hja⟩
        · rintro ⟨j, hj, hja⟩
          rcases List.mem_cons.mp hj with rfl | hj
          · rw [hfa] at hja
            cases hja
            exact Finset.mem_insert_self w s0
          · exact Finset.mem_insert_of_mem ((ih s0 hrest v).mpr ⟨j, hj, hja⟩)

theorem PyEnum.includeSet_subset (e : PyEnum) (ids : List PyIdent)
    (s : Finset ℕ) (h : e.includeSet ids = some s) : s ⊆ e.memberVals := by
  intro v hv
  obtain ⟨i, _, hfa⟩ := (PyEnum.includeSet_spec e ids s h v).mp hv
  exact PyEnum.from_any_mem e i v hfa

/-- **C2.** The claim says `DaqLCLS1.configure` raises a state-transition
error from states `Open`/`Running` and passes the state guard from
`Connected`/`Configured`.  On the code as written the guard is unreachable:
on every connected instance (peer state `Open` = 3, `Running` = 4,
`Connected` = 1, `Configured` = 2 alike) `state = self.state` raises
`AttributeError('_state_enum')` first.  The third conjunct shows that the
guard of lines 1032-1034, taken in isolation, does implement exactly the
claimed behaviour — the `_state_enum` slip in the `state` property is what
breaks the claim. -/
theorem configure_state_guard_unreachable :
    (DaqLCLS1.configure Daq1.init 3 Option.none Option.none Option.none
        Option.none Option.none Option.none true).1 =
      Except.error (PyErr.attributeError
        "'DaqLCLS1' object has no attribute '_state_enum'") ∧
    (DaqLCLS1.configure Daq1.init 1 Option.none Option.none Option.none
        Option.none Option.none Option.none true).1 =
      Except.error (PyErr.attributeError
        "'DaqLCLS1' object has no attribute '_state_enum'") ∧
    (DaqLCLS1.configure_from_state "Open" Daq1.init Option.none Option.none
        Option.none Option.none Option.none Option.none true).1 =
      Except.error (PyErr.stateTransitionError
        "Cannot configure from state Open!") ∧
    (DaqLCLS1.configure_from_state "Running" Daq1.init Option.none Option.none
        Option.none Option.none Option.none Option.none true).1 =
      Except.error (PyErr.stateTransitionError
        "Cannot configure from state Running!") :=
  ⟨rfl, rfl, rfl, rfl⟩

/-- **C3.** `preconfig(events=10)` followed by `preconfig(duration=5)` does
*not* clear `events`: the source only discards a `duration` argument passed
in the same call as an `events` argument and never writes the other signal
back to `None`, so after the two calls both `events_cfg = 10` and
`duration_cfg = 5` are active simultaneously, contradicting the claimed
exclusivity invariant (and the source's own comment "Only one of (events,
duration) should be preconfigured."). -/
theorem preconfig_duration_does_not_clear_events :
    (DaqLCLS1.preconfig
        (DaqLCLS1.preconfig Daq1.init (some (PyVal.int 10)) Option.none
          Option.none Option.none Option.none Option.none)
        Option.none (some (PyVal.int 5)) Option.none Option.none Option.none
        Option.none).cfg.events = PyVal.int 10 ∧
    (DaqLCLS1.preconfig
        (DaqLCLS1.preconfig Daq1.init (some (PyVal.int 10)) Option.none
          Option.none Option.none Option.none Option.none)
        Option.none (some (PyVal.int 5)) Option.none Option.none Option.none
        Option.none).cfg.duration = PyVal.int 5 :=
  ⟨rfl, rfl⟩

/-- **C4.** Every call to `DaqLCLS1.configure` on a connected instance
raises (the `state` read at line 1031 raises `AttributeError`, see C9) and
returns the instance state — the dirty flag and the configured flag alike —
exactly as it was, and the peer `pydaq.Control.configure` RPC is never
issued.  So (a) "if the call raises an error then the dirty flag and the
configured flag are unchanged" holds of every execution, and (b) "the
peer-side configure succeeds" holds of no execution, making the success
half of the claim vacuously true: nothing but a successful configure call
ever clears the dirty flag (on this code, nothing ever does). -/
theorem configure_error_leaves_flags_unchanged (d : Daq1) (num : Nat)
    (events duration record useL3t controls beginSleep : Option PyVal)
    (peerOk : Bool) :
    DaqLCLS1.configure d num events duration record useL3t controls
        beginSleep peerOk =
      (Except.error (PyErr.attributeError
        "'DaqLCLS1' object has no attribute '_state_enum'"), d) ∧
    DaqLCLS1.configure_peer_calls num duration = [] :=
  ⟨rfl, rfl⟩

/-- **C5.** After a successful `stop` records its timestamp in `_last_stop`,
the `start_thread` worker of a subsequent `kickoff`/`begin` cannot issue the
peer `begin` RPC earlier than `BEGIN_THROTTLE` seconds past that timestamp,
whatever wall-clock instant `now` the worker reads: either the throttle
window has already elapsed (`tmo ≤ 0`, no sleep needed) or the worker sleeps
for the exact remainder. -/
theorem begin_throttle_enforced (tStop now : ℚ) (c : StopClock) :
    (DaqLCLS1.stop_clock tStop c).lastStop + BEGIN_THROTTLE ≤
      DaqLCLS1.begin_issue_time now (DaqLCLS1.stop_clock tStop c).lastStop := by
  simp only [DaqLCLS1.stop_clock, DaqLCLS1.begin_issue_time,
    DaqLCLS1.throttle_sleep]
  split_ifs with h
  · linarith
  · push_neg at h
    linarith

/-- **C6.** If the body of a blocking `Daq.begin(wait=True, end_run=e)` is
interrupted by `KeyboardInterrupt` after any number `k` of its steps, the
`except KeyboardInterrupt` handler converges the backend before returning:
the final action of the trace is `self.end_run()` when `e` is true and
`self.stop()` when `e` is false, so an interrupted begin never returns with
the backend left running unmanaged. -/
theorem begin_interrupt_converges (wait endRun : Bool) (k : Nat) :
    (Daq.begin_trace wait endRun (some k)).getLast? =
      some (if endRun then BeginAct.endRunCall else BeginAct.stopCall) := by
  simp [Daq.begin_trace]

/-- The intended gating of `stop`/`end_run`, proved of the in-isolation
bodies (`DaqLCLS2.stop_gating`/`end_run_gating`): for any vocabulary
resolving `paused`/`running`/`starting`, `stop` issues `endstep` exactly in
{paused, running}, `end_run` issues `endrun` exactly in
{starting, paused, running}, and both are silent no-ops elsewhere.  No real
call reaches these bodies (the `include` call raises `TypeError` first). -/
theorem stop_end_run_state_gating (e : PyEnum) (st p r g : Nat)
    (hp : e.fromName "paused" = some p) (hr : e.fromName "running" = some r)
    (hg : e.fromName "starting" = some g) :
    DaqLCLS2.stop_gating e st =
      Except.ok (if st = p ∨ st = r then ["endstep"] else []) ∧
    DaqLCLS2.end_run_gating e st =
      Except.ok (if st = g ∨ st = p ∨ st = r then ["endrun"] else []) := by
  constructor
  · simp only [DaqLCLS2.stop_gating, PyEnum.includeSet, List.foldr_cons,
      List.foldr_nil, PyEnum.from_any, hp, hr]
    have hmem : (st ∈ insert p (insert r (∅ : Finset ℕ))) ↔
        (st = p ∨ st = r) := by simp
    rw [if_congr hmem rfl rfl]
    split_ifs <;> rfl
  · simp only [DaqLCLS2.end_run_gating, PyEnum.includeSet, List.foldr_cons,
      List.foldr_nil, PyEnum.from_any, hp, hr, hg]
    have hmem : (st ∈ insert g (insert p (insert r (∅ : Finset ℕ)))) ↔
        (st = g ∨ st = p ∨ st = r) := by simp
    rw [if_congr hmem rfl rfl]
    split_ifs <;> rfl

/-- **C7.** The claim says `stop`/`end_run` issue their transition request
exactly in the applicable states (`paused`/`running`, plus `starting` for
`end_run`) and are silent no-ops elsewhere.  On the code both raise
`TypeError` in *every* state: the guard evaluates
`self.state_enum.include([...])`, a class-level call of the plain instance
method `include(self, identifiers)`, which fails at binding before any
membership test or peer call (and a `DaqLCLS2` cannot even be constructed,
its `__init__` raising the analogous `TypeError` at line 1407).  The last
two conjuncts show the claim describes the intended gating: the method
bodies in isolation issue `endstep` exactly in {paused (7), running (8)}
and `endrun` exactly in {starting (6), paused, running}, silently no-opping
elsewhere — the missing `@classmethod` is the slip. -/
theorem stop_end_run_always_type_error (st : Nat) :
    DaqLCLS2.stop psdaqStates st =
      Except.error (PyErr.typeError
        "include() missing 1 required positional argument: 'identifiers'") ∧
    DaqLCLS2.end_run psdaqStates st =
      Except.error (PyErr.typeError
        "include() missing 1 required positional argument: 'identifiers'") ∧
    DaqLCLS2.stop_gating psdaqStates st =
      Except.ok (if st = 7 ∨ st = 8 then ["endstep"] else []) ∧
    DaqLCLS2.end_run_gating psdaqStates st =
      Except.ok (if st = 6 ∨ st = 7 ∨ st = 8 then ["endrun"] else []) := by
  obtain ⟨h1, h2⟩ := stop_end_run_state_gating psdaqStates st 7 8 6 rfl rfl rfl
  exact ⟨rfl, rfl, h1, h2⟩

/-- The partition law of the helper bodies' resolution logic in isolation:
whenever `includeSet` resolves a list of identifiers to a set `s`,
`excludeSet` is exactly the complement of `s` within the member values,
their union is the set of all members, their intersection is empty, and `s`
is exactly the set of members matched by some identifier in the list.  This
is the behaviour the docstrings describe; no real invocation of
`include`/`exclude` reaches it (every call raises `TypeError`, see
`include_exclude_never_accept`). -/
theorem helpful_enum_partition (e : PyEnum) (ids : List PyIdent)
    (s : Finset ℕ) (h : e.includeSet ids = some s) :
    e.excludeSet ids = some (e.memberVals \ s) ∧
    s ∪ (e.memberVals \ s) = e.memberVals ∧
    s ∩ (e.memberVals \ s) = ∅ ∧
    ∀ v, v ∈ s ↔ ∃ i ∈ ids, e.from_any i = some v := by
  have hsub : s ⊆ e.memberVals := PyEnum.includeSet_subset e ids s h
  refine ⟨?_, Finset.union_sdiff_of_subset hsub, ?_,
    PyEnum.includeSet_spec e ids s h⟩
  · rw [PyEnum.excludeSet, h]
    rfl
  · exact Finset.inter_sdiff_self s e.memberVals

/-- **C8.** The claim says `include(I)` and `exclude(I)` partition the
vocabulary for every accepted `I`.  On the code the helpers can never be
successfully invoked, so no `I` is ever accepted and no partition is ever
computed: they are plain instance methods (no `@classmethod`), so the
class-level calls the module makes fail at binding with `TypeError`
(missing `identifiers`/`identifier`), and the one binding that succeeds — a
call on an enum member — fails inside `from_any` on `self[identifier]` with
a not-subscriptable `TypeError` that `except KeyError` does not catch.  The
last two conjuncts show the claim describes the intended behaviour: the
bodies' resolution logic in isolation resolves `['paused', 'running']` to
`{7, 8}` with `exclude` the exact complement (the general partition law is
`helpful_enum_partition`) — the missing `@classmethod` is the slip. -/
theorem include_exclude_never_accept :
    HelpfulIntEnum.include_on_class psdaqStates
        [PyIdent.name "paused", PyIdent.name "running"] =
      Except.error (PyErr.typeError
        "include() missing 1 required positional argument: 'identifiers'") ∧
    HelpfulIntEnum.exclude_on_class psdaqStates
        [PyIdent.name "paused", PyIdent.name "running"] =
      Except.error (PyErr.typeError
        "exclude() missing 1 required positional argument: 'identifiers'") ∧
    HelpfulIntEnum.from_any_on_class psdaqStates (PyIdent.name "paused") =
      Except.error (PyErr.typeError
        "from_any() missing 1 required positional argument: 'identifier'") ∧
    HelpfulIntEnum.from_any_on_member 7 (PyIdent.name "paused") =
      Except.error (PyErr.typeError
        "'PsdaqState' object is not subscriptable") ∧
    psdaqStates.includeSet [PyIdent.name "paused", PyIdent.name "running"] =
      some {7, 8} ∧
    psdaqStates.excludeSet [PyIdent.name "paused", PyIdent.name "running"] =
      some (psdaqStates.memberVals \ {7, 8}) :=
  ⟨rfl, rfl, rfl, rfl, by decide, by decide⟩

/-- **C9.** On every connected `DaqLCLS1` instance, reading the `state`
property raises `AttributeError` (it references `self._state_enum` while the
class defines only `state_enum`), and every operation that consults `state`
while connected — `configure`, `wait`, `pause`, `resume`, and the readiness
poll of the `kickoff` worker — propagates that `AttributeError` instead of
ever observing a state name (inside the `kickoff` worker the exception
terminates the background thread, so the caller sees an unresolved status
rather than the error). -/
theorem state_attribute_error_propagates (num : Nat) (d : Daq1)
    (events duration record useL3t controls beginSleep : Option PyVal)
    (peerOk : Bool) :
    DaqLCLS1.state true num =
      Except.error (PyErr.attributeError
        "'DaqLCLS1' object has no attribute '_state_enum'") ∧
    (DaqLCLS1.configure d num events duration record useL3t controls
        beginSleep peerOk).1 =
      Except.error (PyErr.attributeError
        "'DaqLCLS1' object has no attribute '_state_enum'") ∧
    DaqLCLS1.wait num =
      Except.error (PyErr.attributeError
        "'DaqLCLS1' object has no attribute '_state_enum'") ∧
    Daq.pause num =
      Except.error (PyErr.attributeError
        "'DaqLCLS1' object has no attribute '_state_enum'") ∧
    Daq.resume num =
      Except.error (PyErr.attributeError
        "'DaqLCLS1' object has no attribute '_state_enum'") ∧
    DaqLCLS1.kickoff_poll num =
      Except.error (PyErr.attributeError
        "'DaqLCLS1' object has no attribute '_state_enum'") :=
  ⟨rfl, rfl, rfl, rfl, rfl, rfl⟩

/-- **C10.** Every `DaqLCLS1.begin` call on a connected backend raises
`TypeError` before any status token exists: the keyword set it forwards
through `Daq.begin` into `self.kickoff(**kwargs)` contains `record`, which
is not a parameter of `DaqLCLS1.kickoff(events, duration, use_l3t,
controls)`, and the `TypeError` from the call binding is not caught by the
`except KeyboardInterrupt` handler.  Moreover `end_run` is absent from the
keywords `DaqLCLS1.begin` passes to `super().begin(...)`, so `Daq.begin`
always runs with its default `end_run=False`. -/
theorem begin_record_kwarg_type_error :
    Daq.begin_kickoff_kwargs =
      ["events", "duration", "record", "use_l3t", "controls"] ∧
    Daq.begin_bind Daq.begin_kickoff_kwargs =
      Except.error (PyErr.typeError
        "kickoff() got an unexpected keyword argument 'record'") ∧
    ¬ "end_run" ∈ DaqLCLS1.begin_super_kwargs :=
  ⟨rfl, rfl, by decide⟩
